import Mathlib

/-
Verification of the ratsio NATS/STAN client library (shallow embedding).

The embedding translates the relevant Rust functions from
  src/nats_client/client_inner.rs, src/nats_client/client.rs and
  src/stan_client/client.rs
into pure Lean functions.  Effects are made explicit:
  * registry mutations become operations on an association list keyed by sid;
  * frames written to the socket sink become an appended trace `sentOps`;
  * messages pushed into a subscription's delivery channel become an appended
    trace `sinkEvents`;
  * fallible socket writes take an `Option RatsioError` parameter (`none`
    means the write succeeded, `some e` means it failed with `e`);
  * the global NUID generator becomes a counter threaded through the state.
-/

namespace Ratsio

/-- Error kinds of the library.  The full enum lives in src/error.rs (not part
of the sources here); the variants below are the ones the translated code
constructs or matches on, with the names used at the use sites. -/
inductive RatsioError where
  | GenericError (msg : String)
  | NoRouteToHostError
  | RequestStreamClosed
  | CannotReconnectToServer
  | AckInboxMissing
  | InternalServerError
  | SendError (msg : String)
  deriving DecidableEq, Repr

/-- Connection lifecycle states (NatsClientState in the source). -/
inductive NatsClientState where
  | Connecting
  | Connected
  | Disconnected
  | Reconnecting
  | Shutdown
  deriving DecidableEq, Repr

/-- The SUB command (ops::Subscribe).  Fields as used by the client code:
subject, sid and optional queue group; `Default::default()` leaves sid empty
and queue_group absent. -/
structure Subscribe where
  subject : String
  sid : String
  queue_group : Option String
  deriving DecidableEq, Repr

/-- The UNSUB command (ops::UnSubscribe); the client only ever fills the sid
field, the rest keeps its defaults. -/
structure UnSubscribe where
  sid : String
  deriving DecidableEq, Repr

/-- The PUB command (ops::Publish): subject, optional reply_to and the raw
payload bytes (modelled as a list of naturals). -/
structure Publish where
  subject : String
  reply_to : Option String
  payload : List Nat
  deriving DecidableEq, Repr

/-- An inbound MSG frame (ops::Message). -/
structure Message where
  subject : String
  sid : String
  reply_to : Option String
  payload : List Nat
  deriving DecidableEq, Repr

/-- Wire operations the translated code sends or routes (ops::Op).  INFO's
server-info payload is opaque to the claims and is kept as a string snapshot;
CONNECT's option record is likewise not inspected by any claim. -/
inductive Op where
  | CONNECT
  | SUB (s : Subscribe)
  | UNSUB (u : UnSubscribe)
  | PUB (p : Publish)
  | MSG (m : Message)
  | PING
  | PONG
  | INFO (info : String)
  | CLOSE
  deriving DecidableEq, Repr

/-- Items travelling on a subscription's delivery channel
(nats_client::ClosableMessage): a message or the close sentinel. -/
inductive ClosableMessage where
  | Message (m : Message)
  | Close
  deriving DecidableEq, Repr

/-- Left-pad a string with zeroes to width ten (used by the NUID model). -/
def padLeftTen (s : String) : String :=
  String.mk (List.replicate (10 - s.length) '0') ++ s

/-- Modelled from the spec: the NUID generator (src/nuid.rs is not among the
sources).  Per the spec a NUID is a 22-character identifier made of a
high-entropy prefix and a monotonically incremented suffix; we model the
generator state as a counter `n` and render a fixed 12-character prefix
followed by the counter left-padded to 10 digits. -/
def nuidNext (n : Nat) : String :=
  "ABCDEFGHIJKL" ++ padLeftTen (Nat.repr n)

theorem nuidNext_ne_empty (n : Nat) : nuidNext n ≠ "" := by
  intro h
  have hdata := congrArg String.data h
  simp [nuidNext, String.data_append] at hdata

/- Association-list model of the subscription registry
(HashMap<String, (UnboundedSender<ClosableMessage>, Subscribe)> in the source;
the sender half is identified by its sid, so the value is the retained
Subscribe command). -/

/-- Lookup by key in an association list (HashMap::get). -/
def lookupA {α : Type} (k : String) : List (String × α) → Option α
  | [] => none
  | (k', v) :: rest => if k' = k then some v else lookupA k rest

/-- Remove every binding of a key (HashMap::remove; a map holds at most one). -/
def removeA {α : Type} (k : String) : List (String × α) → List (String × α)
  | [] => []
  | (k', v) :: rest => if k' = k then removeA k rest else (k', v) :: removeA k rest

/-- Insert a binding, replacing any previous one (HashMap::insert). -/
def insertA {α : Type} (k : String) (v : α) (l : List (String × α)) :
    List (String × α) :=
  (k, v) :: removeA k l

theorem lookupA_insertA_self {α : Type} (k : String) (v : α)
    (l : List (String × α)) : lookupA k (insertA k v l) = some v := by
  simp [insertA, lookupA]

theorem lookupA_removeA_self {α : Type} (k : String) (l : List (String × α)) :
    lookupA k (removeA k l) = none := by
  induction l with
  | nil => simp [removeA, lookupA]
  | cons p rest ih =>
    by_cases h : p.fst = k
    · simpa [removeA, h] using ih
    · simpa [removeA, lookupA, h] using ih

theorem removeA_insertA_self {α : Type} (k : String) (v : α)
    (l : List (String × α)) : removeA k (insertA k v l) = removeA k l := by
  have : removeA k (removeA k l) = removeA k l := by
    induction l with
    | nil => simp [removeA]
    | cons p rest ih =>
      by_cases h : p.fst = k
      · simpa [removeA, h] using ih
      · simpa [removeA, h] using ih
  simpa [insertA, removeA] using this

/-- Engine-side state of the core client that the claims observe. -/
structure NatsState where
  registry : List (String × Subscribe)
  sentOps : List Op
  sinkEvents : List (String × ClosableMessage)
  nuidCounter : Nat
  lastPing : Nat
  serverInfo : Option String
  state : NatsClientState
  reconnect_version : Nat
  deriving Repr

/- ------------------------------------------------------------------ -/
/- C1: reconnect version fencing                                       -/
/- ------------------------------------------------------------------ -/

/-- Initial reconnect version, NatsClient::new (client.rs line 26): the engine
starts with `reconnect_version = 1` and spawns the first reader with that
version. -/
def initialVersion : Nat := 1

/-- Version bookkeeping of NatsClientInner::do_reconnect
(client_inner.rs lines 272-275): the engine's `reconnect_version` is
incremented by one, and then `start` is invoked with the literal version `1`
for the freshly spawned inbound reader.  Returns
(engine version after the bump, version handed to the new reader). -/
def do_reconnect_versions (reconnect_version : Nat) : Nat × Nat :=
  (reconnect_version + 1, 1)

/-- Reader fencing check of NatsClientInner::start (client_inner.rs lines
83-87): on each inbound frame the reader compares the engine's current
`reconnect_version` with its own tag and keeps running only when they are
equal. -/
def readerMatches (engineVersion readerVersion : Nat) : Bool :=
  engineVersion = readerVersion

/-- C1 (code_bug evaluation): on the first reconnect of a freshly constructed
client the engine bumps its version counter from 1 to 2, yet the inbound
reader spawned by the reconnect is tagged with the hard-coded version 1, so
the new reader fails the fencing check against the engine's current version
and exits on its first frame.  This refutes the claim that the reader spawned
by a reconnect runs under the engine's freshly bumped current version. -/
theorem c1_reconnect_reader_version_bug :
    (do_reconnect_versions initialVersion).1 = 2 ∧
    (do_reconnect_versions initialVersion).2 = 1 ∧
    readerMatches (do_reconnect_versions initialVersion).1
      (do_reconnect_versions initialVersion).2 = false := by
  decide

/- ------------------------------------------------------------------ -/
/- C2: empty address pool fails construction before any connect        -/
/- ------------------------------------------------------------------ -/

/-- A resolved socket address. -/
structure SocketAddr where
  host : String
  port : Nat
  deriving DecidableEq, Repr

/-- Scheme stripping in NatsClientInner::try_connect (client_inner.rs lines
33-37): drop a leading `nats://` if present. -/
def stripNatsScheme (raw : String) : String :=
  if raw.startsWith "nats://" then raw.drop 7 else raw

/-- Address-pool computation of NatsClientInner::try_connect (client_inner.rs
lines 30-49).  `parseA` stands for direct `SocketAddr` parsing and `resolveA`
for name resolution (`to_socket_addrs`); a `none` from both drops the uri with
a logged error, exactly as the source's flat_map does. -/
def valid_addresses (parseA : String → Option SocketAddr)
    (resolveA : String → Option (List SocketAddr)) (uris : List String) :
    List (String × SocketAddr) :=
  uris.flatMap (fun raw =>
    let uri := stripNatsScheme raw
    match parseA uri with
    | some addr => [(uri, addr)]
    | none =>
      match resolveA uri with
      | some addrs => addrs.map (fun a => (uri, a))
      | none => [])

/-- One pass over the candidate pool (the inner `for` of try_connect): try
each address in declared order, first success wins.  Returns the winning
address (if any) and the list of addresses on which a TCP connect was
attempted. -/
def connectFirst (connectOk : SocketAddr → Bool) :
    List (String × SocketAddr) → Option SocketAddr × List SocketAddr
  | [] => (none, [])
  | (_, a) :: rest =>
    if connectOk a then (some a, [a])
    else
      let r := connectFirst connectOk rest
      (r.1, a :: r.2)

/-- The retry loop of try_connect (client_inner.rs lines 53-69).  With
`keepRetrying` the source sleeps and repeats forever; `fuel` bounds the number
of passes so the model stays total (exhausted fuel is reported as no-route,
a state the source never reaches while retrying). -/
def try_connect_go (connectOk : SocketAddr → Bool)
    (pool : List (String × SocketAddr)) (keepRetrying : Bool) :
    Nat → Except RatsioError SocketAddr × List SocketAddr
  | 0 => (Except.error RatsioError.NoRouteToHostError, [])
  | fuel + 1 =>
    match connectFirst connectOk pool with
    | (some a, tried) => (Except.ok a, tried)
    | (none, tried) =>
      if keepRetrying then
        let r := try_connect_go connectOk pool keepRetrying fuel
        (r.1, tried ++ r.2)
      else (Except.error RatsioError.NoRouteToHostError, tried)

/-- NatsClientInner::try_connect (client_inner.rs lines 25-70): compute the
candidate pool; an empty pool fails immediately with
`GenericError "No valid NATS uris"` before any connect is attempted; otherwise
run the connect loop.  The second component is the trace of attempted
connects. -/
def try_connect (parseA : String → Option SocketAddr)
    (resolveA : String → Option (List SocketAddr))
    (connectOk : SocketAddr → Bool) (uris : List String)
    (keepRetrying : Bool) (fuel : Nat) :
    Except RatsioError SocketAddr × List SocketAddr :=
  let pool := valid_addresses parseA resolveA uris
  if pool.isEmpty then
    (Except.error (RatsioError.GenericError "No valid NATS uris"), [])
  else try_connect_go connectOk pool keepRetrying fuel

/-- Construction entry NatsClient::new (client.rs lines 17-24): its first
action is `try_connect(opts, uris, keep_retrying = false)`, and the `?`
propagates a failure synchronously out of `new` before anything else runs.
The construction outcome relevant to the claims is therefore the try_connect
outcome together with its connect-attempt trace. -/
def natsClientNew (parseA : String → Option SocketAddr)
    (resolveA : String → Option (List SocketAddr))
    (connectOk : SocketAddr → Bool) (uris : List String) (fuel : Nat) :
    Except RatsioError SocketAddr × List SocketAddr :=
  try_connect parseA resolveA connectOk uris false fuel

/-- C2: whenever the uri list resolves to an empty candidate pool, client
construction fails synchronously with the configuration error
`GenericError "No valid NATS uris"` and the connect-attempt trace is empty —
no connect is tried. -/
theorem c2_empty_pool_config_error (parseA : String → Option SocketAddr)
    (resolveA : String → Option (List SocketAddr))
    (connectOk : SocketAddr → Bool) (uris : List String) (fuel : Nat)
    (h : valid_addresses parseA resolveA uris = []) :
    natsClientNew parseA resolveA connectOk uris fuel =
      (Except.error (RatsioError.GenericError "No valid NATS uris"), []) := by
  simp [natsClientNew, try_connect, h]

/-- C2 witness: a concrete options value whose single uri resolves to no
address is rejected at construction with the configuration error and an empty
attempt trace. -/
theorem c2_empty_pool_config_error_witness :
    natsClientNew (fun _ => none) (fun _ => none) (fun _ => true)
      ["nats://unresolvable.example:4222"] 5 =
      (Except.error (RatsioError.GenericError "No valid NATS uris"), []) :=
  c2_empty_pool_config_error (fun _ => none) (fun _ => none) (fun _ => true)
    ["nats://unresolvable.example:4222"] 5 rfl

/- ------------------------------------------------------------------ -/
/- Core client operations                                              -/
/- ------------------------------------------------------------------ -/

/-- NatsClientInner::subscribe (client_inner.rs lines 154-169): create the
delivery channel, pick the sid (a fresh NUID when the command's sid is empty,
otherwise the command's own sid), insert (sender, original command) into the
registry, then send the SUB frame.  `sendRes` is the outcome of the
`send_command` write; on failure the `?` returns the error while the registry
entry stays inserted and no frame is recorded on the wire. -/
def subscribe (st : NatsState) (cmd : Subscribe) (sendRes : Option RatsioError) :
    Except RatsioError String × NatsState :=
  let sid := if cmd.sid = "" then nuidNext st.nuidCounter else cmd.sid
  let counterAfter := if cmd.sid = "" then st.nuidCounter + 1 else st.nuidCounter
  let stIns : NatsState :=
    { st with registry := insertA sid cmd st.registry, nuidCounter := counterAfter }
  match sendRes with
  | some e => (Except.error e, stIns)
  | none => (Except.ok sid, { stIns with sentOps := stIns.sentOps ++ [Op.SUB cmd] })

/-- NatsClientInner::un_subscribe (client_inner.rs lines 171-185): when the
sid is registered, remove it, push the close sentinel into its delivery
channel and send the UNSUB frame (a failed send propagates, the removal and
sentinel staying in effect); an unknown sid does nothing and returns Ok. -/
def un_subscribe (st : NatsState) (sid : String) (sendRes : Option RatsioError) :
    Except RatsioError Unit × NatsState :=
  match lookupA sid st.registry with
  | some _ =>
    let stRem : NatsState :=
      { st with registry := removeA sid st.registry,
                sinkEvents := st.sinkEvents ++ [(sid, ClosableMessage.Close)] }
    match sendRes with
    | some e => (Except.error e, stRem)
    | none => (Except.ok (), { stRem with sentOps := stRem.sentOps ++ [Op.UNSUB ⟨sid⟩] })
  | none => (Except.ok (), st)

/-- NatsClientInner::request (client_inner.rs lines 191-211): draw a fresh
reply inbox, set it as the command's reply_to, subscribe to the inbox with a
fresh sid, send the PUB, await the first message of the reply sequence,
un_subscribe (its result ignored), and return the message, or the
request-stream-closed error when the sequence ended without one.  `replySeq`
is the reply subscription's delivery sequence; `subSend`, `pubSend` and
`unsubSend` are the outcomes of the three socket writes. -/
def request (st : NatsState) (cmd : Publish)
    (subSend pubSend unsubSend : Option RatsioError) (replySeq : List Message) :
    Except RatsioError Message × NatsState :=
  let reply_to := nuidNext st.nuidCounter
  let sidFresh := nuidNext (st.nuidCounter + 1)
  let st0 : NatsState := { st with nuidCounter := st.nuidCounter + 2 }
  let cmdR : Publish := { cmd with reply_to := some reply_to }
  let subCmd : Subscribe := ⟨reply_to, sidFresh, none⟩
  match subscribe st0 subCmd subSend with
  | (Except.error e, st1) => (Except.error e, st1)
  | (Except.ok sid, st1) =>
    match pubSend with
    | some e => (Except.error e, st1)
    | none =>
      let st2 : NatsState := { st1 with sentOps := st1.sentOps ++ [Op.PUB cmdR] }
      let response := replySeq.head?
      let st3 := (un_subscribe st2 sid unsubSend).2
      match response with
      | some m => (Except.ok m, st3)
      | none => (Except.error RatsioError.RequestStreamClosed, st3)

/-- NatsClientInner::stop (client_inner.rs lines 213-235): set Shutdown, send
the close sentinel and an UNSUB for every open subscription, clear the
registry. -/
def stop (st : NatsState) : NatsState :=
  { st with state := NatsClientState.Shutdown,
            sinkEvents :=
              st.sinkEvents ++ st.registry.map (fun p => (p.1, ClosableMessage.Close)),
            sentOps := st.sentOps ++ st.registry.map (fun p => Op.UNSUB ⟨p.1⟩),
            registry := [] }

/-- NatsClientInner::process_nats_event (client_inner.rs lines 122-147): every
inbound frame first resets the last-activity timestamp to the current time,
then routes: CLOSE invokes stop, INFO replaces the server-info snapshot, PING
answers with PONG, MSG is enqueued to the registered subscription's channel
(dropped when the sid is unknown), other frames are ignored. -/
def process_nats_event (st : NatsState) (now : Nat) (op : Op) : NatsState :=
  let st0 : NatsState := { st with lastPing := now }
  match op with
  | Op.CLOSE => stop st0
  | Op.INFO i => { st0 with serverInfo := some i }
  | Op.PING => { st0 with sentOps := st0.sentOps ++ [Op.PONG] }
  | Op.MSG m =>
    match lookupA m.sid st0.registry with
    | some _ =>
      { st0 with sinkEvents := st0.sinkEvents ++ [(m.sid, ClosableMessage.Message m)] }
    | none => st0
  | _ => st0

/-- Evaluation of subscribe on a command with a non-empty sid and a successful
write (shared helper). -/
theorem subscribe_ok (st : NatsState) (cmd : Subscribe) (h : cmd.sid ≠ "") :
    subscribe st cmd none =
      (Except.ok cmd.sid,
        { st with registry := insertA cmd.sid cmd st.registry,
                  sentOps := st.sentOps ++ [Op.SUB cmd] }) := by
  simp [subscribe, h]

/-- Evaluation of un_subscribe on a registered sid with a successful write
(shared helper). -/
theorem un_subscribe_present (st : NatsState) (sid : String) (v : Subscribe)
    (h : lookupA sid st.registry = some v) :
    un_subscribe st sid none =
      (Except.ok (),
        { st with registry := removeA sid st.registry,
                  sinkEvents := st.sinkEvents ++ [(sid, ClosableMessage.Close)],
                  sentOps := st.sentOps ++ [Op.UNSUB ⟨sid⟩] }) := by
  simp [un_subscribe, h]

/-- After any un_subscribe call the sid is absent from the registry when it
was absent before or was just removed (shared helper). -/
theorem lookupA_after_un_subscribe (st : NatsState) (sid : String)
    (sendRes : Option RatsioError) :
    lookupA sid ((un_subscribe st sid sendRes).2).registry = none := by
  unfold un_subscribe
  cases h : lookupA sid st.registry with
  | none => simp [h]
  | some v =>
    cases sendRes with
    | none => simp [lookupA_removeA_self]
    | some e => simp [lookupA_removeA_self]

/- ------------------------------------------------------------------ -/
/- C7: unsubscribe idempotence                                          -/
/- ------------------------------------------------------------------ -/

/-- C7: un_subscribe is idempotent.  When the sid is registered it removes the
entry, pushes the close sentinel into the delivery channel and sends UNSUB;
when the sid is unknown it is a no-op returning success, sending nothing and
leaving the state unchanged; and any second call on the same sid after a
successful first one is such a successful no-op. -/
theorem c7_un_subscribe_idempotent (st : NatsState) (sid : String) :
    (∀ v : Subscribe, lookupA sid st.registry = some v →
      un_subscribe st sid none =
        (Except.ok (),
          { st with registry := removeA sid st.registry,
                    sinkEvents := st.sinkEvents ++ [(sid, ClosableMessage.Close)],
                    sentOps := st.sentOps ++ [Op.UNSUB ⟨sid⟩] })) ∧
    (lookupA sid st.registry = none →
      ∀ sendRes : Option RatsioError, un_subscribe st sid sendRes = (Except.ok (), st)) ∧
    (∀ firstSend secondSend : Option RatsioError,
      un_subscribe (un_subscribe st sid firstSend).2 sid secondSend =
        (Except.ok (), (un_subscribe st sid firstSend).2)) := by
  refine ⟨?_, ?_, ?_⟩
  · intro v h
    exact un_subscribe_present st sid v h
  · intro h sendRes
    simp [un_subscribe, h]
  · intro firstSend secondSend
    have habs := lookupA_after_un_subscribe st sid firstSend
    generalize h1 : (un_subscribe st sid firstSend).2 = st1 at habs ⊢
    simp [un_subscribe, habs]

/-- C7 witness: on a concrete registry holding sid "S7", the first
un_subscribe removes the entry, closes the channel and emits UNSUB, and a
second un_subscribe of "S7" is a no-op returning success. -/
theorem c7_un_subscribe_idempotent_witness :
    (un_subscribe
        { registry := [("S7", ⟨"foo", "S7", none⟩)], sentOps := [],
          sinkEvents := [], nuidCounter := 0, lastPing := 0, serverInfo := none,
          state := NatsClientState.Connected, reconnect_version := 1 }
        "S7" none =
      (Except.ok (),
        { registry := [], sentOps := [Op.UNSUB ⟨"S7"⟩],
          sinkEvents := [("S7", ClosableMessage.Close)], nuidCounter := 0,
          lastPing := 0, serverInfo := none,
          state := NatsClientState.Connected, reconnect_version := 1 })) ∧
    (un_subscribe
        (un_subscribe
          { registry := [("S7", ⟨"foo", "S7", none⟩)], sentOps := [],
            sinkEvents := [], nuidCounter := 0, lastPing := 0, serverInfo := none,
            state := NatsClientState.Connected, reconnect_version := 1 }
          "S7" none).2
        "S7" none =
      (Except.ok (),
        (un_subscribe
          { registry := [("S7", ⟨"foo", "S7", none⟩)], sentOps := [],
            sinkEvents := [], nuidCounter := 0, lastPing := 0, serverInfo := none,
            state := NatsClientState.Connected, reconnect_version := 1 }
          "S7" none).2)) := by
  constructor
  · have h :=
      (c7_un_subscribe_idempotent
        { registry := [("S7", ⟨"foo", "S7", none⟩)], sentOps := [],
          sinkEvents := [], nuidCounter := 0, lastPing := 0, serverInfo := none,
          state := NatsClientState.Connected, reconnect_version := 1 } "S7").1
        ⟨"foo", "S7", none⟩ (by simp [lookupA])
    simpa [removeA] using h
  · exact
      (c7_un_subscribe_idempotent
        { registry := [("S7", ⟨"foo", "S7", none⟩)], sentOps := [],
          sinkEvents := [], nuidCounter := 0, lastPing := 0, serverInfo := none,
          state := NatsClientState.Connected, reconnect_version := 1 } "S7").2.2
        none none

/- ------------------------------------------------------------------ -/
/- C8: subscribe is not atomic on a failed SUB send                    -/
/- ------------------------------------------------------------------ -/

/-- C8: subscribe inserts the registry entry before sending SUB, so when the
SUB write fails the call returns the send error while the entry (the original
Subscribe command under the chosen sid) remains registered, no frame having
been written; the caller never learns the sid. -/
theorem c8_subscribe_not_atomic (st : NatsState) (cmd : Subscribe)
    (e : RatsioError) :
    (subscribe st cmd (some e)).1 = Except.error e ∧
    lookupA (if cmd.sid = "" then nuidNext st.nuidCounter else cmd.sid)
      ((subscribe st cmd (some e)).2).registry = some cmd ∧
    ((subscribe st cmd (some e)).2).sentOps = st.sentOps := by
  refine ⟨rfl, ?_, rfl⟩
  simp only [subscribe]
  exact lookupA_insertA_self _ cmd st.registry

/- ------------------------------------------------------------------ -/
/- C3 and C9: request/reply                                            -/
/- ------------------------------------------------------------------ -/

/-- Full evaluation of request when all three socket writes succeed (shared
helper): the trace gains SUB (to the fresh inbox, under the fresh sid), then
PUB (with reply_to the inbox), then UNSUB; the reply subscription is removed
again and its channel closed; the result is the head of the reply sequence,
or the request-stream-closed error when the sequence is empty. -/
theorem request_eval (st : NatsState) (cmd : Publish) (replySeq : List Message) :
    request st cmd none none none replySeq =
      ((match replySeq.head? with
        | some m => Except.ok m
        | none => Except.error RatsioError.RequestStreamClosed),
       { st with
           nuidCounter := st.nuidCounter + 2,
           registry := removeA (nuidNext (st.nuidCounter + 1)) st.registry,
           sentOps := st.sentOps ++
             [Op.SUB ⟨nuidNext st.nuidCounter, nuidNext (st.nuidCounter + 1), none⟩,
              Op.PUB { cmd with reply_to := some (nuidNext st.nuidCounter) },
              Op.UNSUB ⟨nuidNext (st.nuidCounter + 1)⟩],
           sinkEvents := st.sinkEvents ++
             [(nuidNext (st.nuidCounter + 1), ClosableMessage.Close)] }) := by
  cases replySeq <;>
    simp [request, subscribe, un_subscribe, nuidNext_ne_empty,
      lookupA_insertA_self, removeA_insertA_self]

/-- Evaluation of request when the PUB write fails (shared helper): the error
propagates, the SUB was already sent and the reply subscription is still in
the registry. -/
theorem request_pub_fail_eval (st : NatsState) (cmd : Publish) (e : RatsioError)
    (unsubSend : Option RatsioError) (replySeq : List Message) :
    request st cmd none (some e) unsubSend replySeq =
      (Except.error e,
       { st with
           nuidCounter := st.nuidCounter + 2,
           registry := insertA (nuidNext (st.nuidCounter + 1))
             ⟨nuidNext st.nuidCounter, nuidNext (st.nuidCounter + 1), none⟩ st.registry,
           sentOps := st.sentOps ++
             [Op.SUB ⟨nuidNext st.nuidCounter, nuidNext (st.nuidCounter + 1), none⟩] }) := by
  simp [request, subscribe, nuidNext_ne_empty]

/-- C3: request generates a fresh reply inbox, subscribes to it, publishes the
message with reply_to set to that inbox, consumes exactly the first message of
the private reply sequence, removes the reply subscription (closing its
channel and sending UNSUB), and returns that message; when the reply sequence
terminates without yielding one, it fails with the request-stream-closed
error.  In both cases the reply sid is gone from the registry afterwards. -/
theorem c3_request_one_reply (st : NatsState) (cmd : Publish)
    (replySeq : List Message) :
    ((request st cmd none none none replySeq).2).sentOps = st.sentOps ++
        [Op.SUB ⟨nuidNext st.nuidCounter, nuidNext (st.nuidCounter + 1), none⟩,
         Op.PUB { cmd with reply_to := some (nuidNext st.nuidCounter) },
         Op.UNSUB ⟨nuidNext (st.nuidCounter + 1)⟩] ∧
    lookupA (nuidNext (st.nuidCounter + 1))
      ((request st cmd none none none replySeq).2).registry = none ∧
    ((request st cmd none none none replySeq).2).sinkEvents = st.sinkEvents ++
        [(nuidNext (st.nuidCounter + 1), ClosableMessage.Close)] ∧
    (∀ (m : Message) (rest : List Message), replySeq = m :: rest →
      (request st cmd none none none replySeq).1 = Except.ok m) ∧
    (replySeq = [] →
      (request st cmd none none none replySeq).1 =
        Except.error RatsioError.RequestStreamClosed) := by
  refine ⟨?_, ?_, ?_, ?_, ?_⟩
  · rw [request_eval]
  · rw [request_eval]
    exact lookupA_removeA_self _ _
  · rw [request_eval]
  · intro m rest h
    subst h
    rw [request_eval]
    simp
  · intro h
    subst h
    rw [request_eval]
    simp

/-- C3 witness: a concrete request whose reply sequence carries one message
returns that message with the SUB/PUB/UNSUB trace, and a concrete request
whose reply sequence is empty fails with the request-stream-closed error. -/
theorem c3_request_one_reply_witness :
    ((request
        { registry := [], sentOps := [], sinkEvents := [], nuidCounter := 0,
          lastPing := 0, serverInfo := none, state := NatsClientState.Connected,
          reconnect_version := 1 }
        ⟨"q", none, [63]⟩ none none none
        [⟨"RQ", "S", none, [42]⟩]).1 = Except.ok ⟨"RQ", "S", none, [42]⟩) ∧
    ((request
        { registry := [], sentOps := [], sinkEvents := [], nuidCounter := 0,
          lastPing := 0, serverInfo := none, state := NatsClientState.Connected,
          reconnect_version := 1 }
        ⟨"q", none, [63]⟩ none none none []).1 =
      Except.error RatsioError.RequestStreamClosed) :=
  ⟨(c3_request_one_reply
      { registry := [], sentOps := [], sinkEvents := [], nuidCounter := 0,
        lastPing := 0, serverInfo := none, state := NatsClientState.Connected,
        reconnect_version := 1 }
      ⟨"q", none, [63]⟩ [⟨"RQ", "S", none, [42]⟩]).2.2.2.1
      ⟨"RQ", "S", none, [42]⟩ [] rfl,
   (c3_request_one_reply
      { registry := [], sentOps := [], sinkEvents := [], nuidCounter := 0,
        lastPing := 0, serverInfo := none, state := NatsClientState.Connected,
        reconnect_version := 1 }
      ⟨"q", none, [63]⟩ []).2.2.2.2 rfl⟩

/-- Element at the boundary of an appended list (shared helper). -/
theorem getElem?_append_cons {α : Type} (l : List α) (a : α) (rest : List α) :
    (l ++ a :: rest)[l.length]? = some a := by
  induction l with
  | nil => simp
  | cons x xs ih => simpa using ih

/-- C9: request never publishes before its reply subscription exists.  In the
sent-frame trace the SUB for the reply inbox occurs at a strictly smaller
index than the PUB carrying that inbox as reply_to; moreover, when the PUB
write fails, the state already contains the reply subscription in the
registry and the SUB frame in the trace, with no PUB recorded — the insert
and the SUB send strictly precede the PUB send. -/
theorem c9_request_sub_before_pub (st : NatsState) (cmd : Publish)
    (replySeq : List Message) (e : RatsioError) :
    (∃ i j : Nat, i < j ∧
      ((request st cmd none none none replySeq).2).sentOps[i]? =
        some (Op.SUB ⟨nuidNext st.nuidCounter, nuidNext (st.nuidCounter + 1), none⟩) ∧
      ((request st cmd none none none replySeq).2).sentOps[j]? =
        some (Op.PUB { cmd with reply_to := some (nuidNext st.nuidCounter) })) ∧
    (request st cmd none (some e) none replySeq).1 = Except.error e ∧
    lookupA (nuidNext (st.nuidCounter + 1))
      ((request st cmd none (some e) none replySeq).2).registry =
      some ⟨nuidNext st.nuidCounter, nuidNext (st.nuidCounter + 1), none⟩ ∧
    ((request st cmd none (some e) none replySeq).2).sentOps =
      st.sentOps ++
        [Op.SUB ⟨nuidNext st.nuidCounter, nuidNext (st.nuidCounter + 1), none⟩] := by
  refine ⟨?_, ?_, ?_, ?_⟩
  · refine ⟨st.sentOps.length, st.sentOps.length + 1, Nat.lt_succ_self _, ?_, ?_⟩
    · rw [request_eval]
      exact getElem?_append_cons st.sentOps _ _
    · rw [request_eval]
      have h :
          st.sentOps ++
            [Op.SUB ⟨nuidNext st.nuidCounter, nuidNext (st.nuidCounter + 1), none⟩,
             Op.PUB { cmd with reply_to := some (nuidNext st.nuidCounter) },
             Op.UNSUB ⟨nuidNext (st.nuidCounter + 1)⟩] =
          (st.sentOps ++
            [Op.SUB ⟨nuidNext st.nuidCounter, nuidNext (st.nuidCounter + 1), none⟩]) ++
            (Op.PUB { cmd with reply_to := some (nuidNext st.nuidCounter) } ::
             [Op.UNSUB ⟨nuidNext (st.nuidCounter + 1)⟩]) := by
        simp
      rw [h]
      have hlen :
          st.sentOps.length + 1 =
            (st.sentOps ++
              [Op.SUB ⟨nuidNext st.nuidCounter, nuidNext (st.nuidCounter + 1), none⟩]).length := by
        simp
      rw [hlen]
      exact getElem?_append_cons _ _ _
  · rw [request_pub_fail_eval]
  · rw [request_pub_fail_eval]
    exact lookupA_insertA_self _ _ _
  · rw [request_pub_fail_eval]

/- ------------------------------------------------------------------ -/
/- C5: heartbeat monitor                                               -/
/- ------------------------------------------------------------------ -/

/-- Environment of one iteration of the heartbeat-monitor loop: whether the
state reads Shutdown at the top of the iteration, whether the PING write
succeeded, and the clock and last-activity timestamp (milliseconds) at the
miss check. -/
structure HBObs where
  shutdown : Bool
  pingOk : Bool
  now : Nat
  lastPing : Nat
  deriving DecidableEq, Repr

/-- NatsClientInner::on_disconnect (client_inner.rs lines 336-353) composed
with NatsClient::on_disconnect (client.rs lines 161-167): set the state to
Disconnected, then invoke every registered disconnect handler once, in
registration order.  Returns the new state and the invocation list. -/
def on_disconnect (st : NatsState) (handlers : List String) :
    NatsState × List String :=
  ({ st with state := NatsClientState.Disconnected }, handlers)

/-- Loop body of NatsClientInner::monitor_heartbeat (client_inner.rs lines
305-334) over a finite trace of iteration environments, with the ping
interval already converted to milliseconds.  Returns how many times
on_disconnect ran (the loop breaks right after it, so at most once) and
whether the monitor transitioned the state to Disconnected.  An iteration
exits silently on Shutdown, disconnects on a failed PING write, disconnects
when now - last_ping exceeds ping_max_out * ping_interval, and otherwise
loops. -/
def monitor_heartbeat_go (pingIntervalMs pingMaxOut : Nat) :
    List HBObs → Nat × Bool
  | [] => (0, false)
  | o :: rest =>
    if o.shutdown then (0, false)
    else if o.pingOk = false then (1, true)
    else if pingMaxOut * pingIntervalMs < o.now - o.lastPing then (1, true)
    else monitor_heartbeat_go pingIntervalMs pingMaxOut rest

/-- NatsClientInner::monitor_heartbeat: the source first converts the
configured ping interval from seconds to milliseconds
(`opts.ping_interval * 1000`), then runs the loop. -/
def monitor_heartbeat (pingIntervalSecs pingMaxOut : Nat)
    (trace : List HBObs) : Nat × Bool :=
  monitor_heartbeat_go (pingIntervalSecs * 1000) pingMaxOut trace

/-- Handler invocations across a number of disconnect notifications: each
notification invokes every registered handler once, in registration order
(client.rs lines 161-167). -/
def handlerFirings {α : Type} (handlers : List α) (notifications : Nat) :
    List α :=
  (List.replicate notifications handlers).flatten

/-- C5: the heartbeat monitor (a) never transitions the state to Disconnected
while every iteration sees a non-Shutdown state, a successful PING write and
an elapsed time within ping_max_out * ping_interval; (b) on the first
iteration whose elapsed time exceeds that bound (all earlier iterations
benign) it runs on_disconnect exactly once — which marks the state
Disconnected and fires every registered handler exactly once, in order; and
(c) processing any inbound frame resets the last-activity timestamp to the
current time. -/
theorem c5_heartbeat_timeout (pis pmo : Nat) (handlers : List String) :
    (∀ trace : List HBObs,
      (∀ x ∈ trace, x.shutdown = false ∧ x.pingOk = true ∧
        x.now - x.lastPing ≤ pmo * (pis * 1000)) →
      monitor_heartbeat pis pmo trace = (0, false)) ∧
    (∀ (pre post : List HBObs) (o : HBObs),
      (∀ x ∈ pre, x.shutdown = false ∧ x.pingOk = true ∧
        x.now - x.lastPing ≤ pmo * (pis * 1000)) →
      o.shutdown = false → o.pingOk = true →
      pmo * (pis * 1000) < o.now - o.lastPing →
      monitor_heartbeat pis pmo (pre ++ o :: post) = (1, true) ∧
      handlerFirings handlers (monitor_heartbeat pis pmo (pre ++ o :: post)).1 =
        handlers) ∧
    (∀ (st : NatsState) (handlers' : List String),
      ((on_disconnect st handlers').1).state = NatsClientState.Disconnected ∧
      (on_disconnect st handlers').2 = handlers') ∧
    (∀ (st : NatsState) (now : Nat) (op : Op),
      (process_nats_event st now op).lastPing = now) := by
  refine ⟨?_, ?_, ?_, ?_⟩
  · intro trace h
    induction trace with
    | nil => rfl
    | cons x rest ih =>
      have hx := h x (List.mem_cons_self x rest)
      have hrest : ∀ y ∈ rest, y.shutdown = false ∧ y.pingOk = true ∧
          y.now - y.lastPing ≤ pmo * (pis * 1000) :=
        fun y hy => h y (List.mem_cons_of_mem x hy)
      have := ih hrest
      simpa [monitor_heartbeat, monitor_heartbeat_go, hx.1, hx.2.1,
        Nat.not_lt.mpr hx.2.2] using this
  · intro pre post o hpre ho1 ho2 ho3
    have hrun : monitor_heartbeat pis pmo (pre ++ o :: post) = (1, true) := by
      induction pre with
      | nil =>
        simp [monitor_heartbeat, monitor_heartbeat_go, ho1, ho2, ho3]
      | cons x rest ih =>
        have hx := hpre x (List.mem_cons_self x rest)
        have hrest : ∀ y ∈ rest, y.shutdown = false ∧ y.pingOk = true ∧
            y.now - y.lastPing ≤ pmo * (pis * 1000) :=
          fun y hy => hpre y (List.mem_cons_of_mem x hy)
        have := ih hrest
        simpa [monitor_heartbeat, monitor_heartbeat_go, hx.1, hx.2.1,
          Nat.not_lt.mpr hx.2.2] using this
    refine ⟨hrun, ?_⟩
    rw [hrun]
    simp [handlerFirings]
  · intro st hs
    exact ⟨rfl, rfl⟩
  · intro st now op
    cases op <;> simp [process_nats_event, stop]
    case MSG m =>
      cases h : lookupA m.sid st.registry <;> simp [h]

/-- C5 witness: with ping interval 1s and ping_max_out 2, a benign iteration
trace yields no disconnect, while a trace whose iteration sees an elapsed
time of 3000ms (> 2000ms) disconnects once and fires the single registered
handler exactly once; a PING frame arriving at time 777 resets the timestamp
to 777. -/
theorem c5_heartbeat_timeout_witness :
    monitor_heartbeat 1 2 [⟨false, true, 500, 100⟩] = (0, false) ∧
    monitor_heartbeat 1 2 [⟨false, true, 3000, 0⟩] = (1, true) ∧
    handlerFirings ["h"] (monitor_heartbeat 1 2 [⟨false, true, 3000, 0⟩]).1 =
      ["h"] ∧
    (process_nats_event
        { registry := [], sentOps := [], sinkEvents := [], nuidCounter := 0,
          lastPing := 0, serverInfo := none, state := NatsClientState.Connected,
          reconnect_version := 1 } 777 Op.PING).lastPing = 777 := by
  refine ⟨?_, ?_, ?_, ?_⟩
  · exact (c5_heartbeat_timeout 1 2 ["h"]).1 [⟨false, true, 500, 100⟩]
      (by decide)
  · exact ((c5_heartbeat_timeout 1 2 ["h"]).2.1 [] [] ⟨false, true, 3000, 0⟩
      (by decide) rfl rfl (by decide)).1
  · exact ((c5_heartbeat_timeout 1 2 ["h"]).2.1 [] [] ⟨false, true, 3000, 0⟩
      (by decide) rfl rfl (by decide)).2
  · exact (c5_heartbeat_timeout 1 2 ["h"]).2.2.2
      { registry := [], sentOps := [], sinkEvents := [], nuidCounter := 0,
        lastPing := 0, serverInfo := none, state := NatsClientState.Connected,
        reconnect_version := 1 } 777 Op.PING

/- ------------------------------------------------------------------ -/
/- Streaming overlay                                                   -/
/- ------------------------------------------------------------------ -/

/-- The streaming PubMsg envelope (protocol::PubMsg, a protobuf record
materialised by an assumed external codec).  Fields as constructed by the
translated code; `Default::default()` leaves reply empty, data empty and
sha256 empty. -/
structure PubMsg where
  client_id : String
  conn_id : List Nat
  guid : String
  subject : String
  reply : String
  data : List Nat
  sha256 : List Nat
  deriving DecidableEq, Repr

/-- Streaming-client state the claims observe: identity fields fixed at the
handshake, the server-assigned publish subject namespace
(client_info.pub_prefix, named pubPfx here), the NUID counter and the trace
of (wire subject, envelope) pairs handed to the core client's publish. -/
structure StanState where
  client_id : String
  conn_id : List Nat
  pubPfx : String
  nuidCounter : Nat
  published : List (String × PubMsg)
  deriving DecidableEq, Repr

/-- StanClient::send_inner (stan_client/client.rs lines 386-415),
parameterised by the SHA-256 digest function (the sha2 crate is an external
pure dependency): hash the payload, read the current conn_id, draw a fresh
guid, build the PubMsg envelope (empty reply when none supplied), and publish
its encoding via the core client on `<pub_prefix>.<subject>`. -/
def send_inner (sha256fn : List Nat → List Nat) (st : StanState)
    (subject : String) (reply_to : Option String) (payload : List Nat) :
    StanState :=
  let guid := nuidNext st.nuidCounter
  let msg : PubMsg :=
    { sha256 := sha256fn payload,
      client_id := st.client_id,
      subject := subject,
      reply := reply_to.getD "",
      data := payload,
      guid := guid,
      conn_id := st.conn_id }
  { st with nuidCounter := st.nuidCounter + 1,
            published := st.published ++ [(st.pubPfx ++ "." ++ subject, msg)] }

/-- StanClient::publish (stan_client/client.rs lines 353-358): send_inner with
no reply subject. -/
def stanPublish (sha256fn : List Nat → List Nat) (st : StanState)
    (subject : String) (payload : List Nat) : StanState :=
  send_inner sha256fn st subject none payload

/-- C4: a streaming publish emits exactly one PubMsg envelope whose sha256 is
the SHA-256 digest of the payload, whose subject is the caller's subject,
whose client_id and conn_id are the client's, whose data is the payload,
whose guid is the generator's fresh (and non-empty) next identifier, and
whose reply is empty since none was supplied; it is published on the wire
subject `<pub_prefix>.<subject>`, and the guid counter is advanced. -/
theorem c4_stan_publish_envelope (sha256fn : List Nat → List Nat)
    (st : StanState) (subject : String) (payload : List Nat) :
    (stanPublish sha256fn st subject payload).published =
      st.published ++
        [(st.pubPfx ++ "." ++ subject,
          { sha256 := sha256fn payload, client_id := st.client_id,
            subject := subject, reply := "", data := payload,
            guid := nuidNext st.nuidCounter, conn_id := st.conn_id })] ∧
    nuidNext st.nuidCounter ≠ "" ∧
    (stanPublish sha256fn st subject payload).nuidCounter =
      st.nuidCounter + 1 := by
  exact ⟨rfl, nuidNext_ne_empty st.nuidCounter, rfl⟩

/- ------------------------------------------------------------------ -/
/- C6: heartbeat responder                                             -/
/- ------------------------------------------------------------------ -/

/-- Loop body of StanClient::process_heartbeats (stan_client/client.rs lines
109-141) for one message received on the heartbeat inbox: when the message
carries a reply subject, build a PubMsg carrying the client_id, conn_id, the
heartbeat inbox as the envelope's subject and a fresh guid (the remaining
fields keeping their defaults) and publish its encoding to that reply
subject; without a reply subject nothing is published.  Returns the list of
(destination subject, envelope) publishes and the advanced NUID counter. -/
def process_heartbeat_msg (client_id : String) (conn_id : List Nat)
    (heartbeat_inbox : String) (nuidCounter : Nat) (msg : Message) :
    List (String × PubMsg) × Nat :=
  match msg.reply_to with
  | some reply_to =>
    ([(reply_to,
       { client_id := client_id, conn_id := conn_id,
         subject := heartbeat_inbox, guid := nuidNext nuidCounter,
         reply := "", data := [], sha256 := [] })],
     nuidCounter + 1)
  | none => ([], nuidCounter)

/-- C6: a message on the heartbeat inbox with a reply subject triggers exactly
one publish, to that reply subject, of a PubMsg carrying the client_id,
conn_id, a fresh guid and the heartbeat inbox as the envelope's subject; a
heartbeat message without a reply subject causes no publish. -/
theorem c6_heartbeat_reply (client_id : String) (conn_id : List Nat)
    (heartbeat_inbox : String) (nuidCounter : Nat) (msg : Message) :
    (∀ r : String, msg.reply_to = some r →
      process_heartbeat_msg client_id conn_id heartbeat_inbox nuidCounter msg =
        ([(r, { client_id := client_id, conn_id := conn_id,
                subject := heartbeat_inbox, guid := nuidNext nuidCounter,
                reply := "", data := [], sha256 := [] })],
         nuidCounter + 1)) ∧
    (msg.reply_to = none →
      process_heartbeat_msg client_id conn_id heartbeat_inbox nuidCounter msg =
        ([], nuidCounter)) := by
  constructor
  · intro r h
    simp [process_heartbeat_msg, h]
  · intro h
    simp [process_heartbeat_msg, h]

/-- C6 witness: a heartbeat message with reply_to "R" yields exactly one
publish to "R" whose envelope subject is the heartbeat inbox, and a heartbeat
message without reply_to yields none. -/
theorem c6_heartbeat_reply_witness :
    process_heartbeat_msg "cid" [1, 2] "_HB.X" 0
        ⟨"_HB.X", "1", some "R", []⟩ =
      ([("R", { client_id := "cid", conn_id := [1, 2], subject := "_HB.X",
                guid := nuidNext 0, reply := "", data := [], sha256 := [] })],
       1) ∧
    process_heartbeat_msg "cid" [1, 2] "_HB.X" 0 ⟨"_HB.X", "1", none, []⟩ =
      ([], 0) :=
  ⟨(c6_heartbeat_reply "cid" [1, 2] "_HB.X" 0
      ⟨"_HB.X", "1", some "R", []⟩).1 "R" rfl,
   (c6_heartbeat_reply "cid" [1, 2] "_HB.X" 0
      ⟨"_HB.X", "1", none, []⟩).2 rfl⟩

/- ------------------------------------------------------------------ -/
/- C10: delivered streaming messages always carry an ack inbox         -/
/- ------------------------------------------------------------------ -/

/-- The streaming message envelope arriving on a subscription's inbox
(protocol::MsgProto, decoded by the assumed external codec). -/
structure MsgProto where
  subject : String
  reply : String
  data : List Nat
  timestamp : Int
  sequence : Nat
  redelivered : Bool
  deriving DecidableEq, Repr

/-- The message record handed to streaming consumers
(stan_client::StanMessage).  The ack closure is represented by whether one
was attached. -/
structure StanMessage where
  subject : String
  reply_to : Option String
  payload : List Nat
  timestamp : Int
  sequence : Nat
  redelivered : Bool
  ack_inbox : Option String
  has_ack_handler : Bool
  deriving DecidableEq, Repr

/-- The Ack envelope (protocol::Ack) published by ack_message. -/
structure Ack where
  subject : String
  sequence : Nat
  deriving DecidableEq, Repr

/-- Message translation of StanClosableReceiver::poll_next
(stan_client/client.rs lines 470-517), parameterised by the MsgProto decoder
(external codec): decode the core message's payload and build the StanMessage
with ack_inbox set to Some of the receiver's ack inbox, an ack handler
attached unless manual_acks, and reply_to mapped from the envelope's reply
(None when empty). -/
def stan_deliver (decode : List Nat → MsgProto) (ack_inbox : String)
    (manual_acks : Bool) (nats_msg : Message) : StanMessage :=
  let msg := decode nats_msg.payload
  { subject := msg.subject,
    reply_to := if msg.reply ≠ "" then some msg.reply else none,
    payload := msg.data,
    timestamp := msg.timestamp,
    sequence := msg.sequence,
    redelivered := msg.redelivered,
    ack_inbox := some ack_inbox,
    has_ack_handler := !manual_acks }

/-- StanClient::acknowledge (stan_client/client.rs lines 343-351): with an ack
inbox present, publish the Ack envelope (subject and sequence) to it; without
one, fail with the ack-inbox-missing error. -/
def acknowledge (m : StanMessage) : Except RatsioError (String × Ack) :=
  match m.ack_inbox with
  | some ack_inbox =>
    Except.ok (ack_inbox, { subject := m.subject, sequence := m.sequence })
  | none => Except.error RatsioError.AckInboxMissing

/-- C10: every message delivered by a streaming subscription stream carries
ack_inbox = Some of the subscription's ack inbox, so acknowledge on a
delivered message always succeeds (publishing the Ack to that inbox) and
never returns the ack-inbox-missing error; that error arises exactly for a
message whose ack_inbox is None. -/
theorem c10_delivered_ack_inbox (decode : List Nat → MsgProto)
    (ack_inbox : String) (manual_acks : Bool) (nats_msg : Message) :
    (stan_deliver decode ack_inbox manual_acks nats_msg).ack_inbox =
      some ack_inbox ∧
    acknowledge (stan_deliver decode ack_inbox manual_acks nats_msg) =
      Except.ok (ack_inbox,
        { subject := (decode nats_msg.payload).subject,
          sequence := (decode nats_msg.payload).sequence }) ∧
    (∀ m : StanMessage, m.ack_inbox = none →
      acknowledge m = Except.error RatsioError.AckInboxMissing) := by
  refine ⟨rfl, rfl, ?_⟩
  intro m h
  simp [acknowledge, h]

/-- C10 witness: a concrete delivered message acknowledges successfully to the
subscription's ack inbox, and a caller-built message without an ack inbox
fails with the ack-inbox-missing error. -/
theorem c10_delivered_ack_inbox_witness :
    acknowledge
        (stan_deliver (fun _ => ⟨"t", "", [7], 0, 7, false⟩) "ACKIN" false
          ⟨"_SUB.X", "1", none, []⟩) =
      Except.ok ("ACKIN", { subject := "t", sequence := 7 }) ∧
    acknowledge ⟨"t", none, [], 0, 7, false, none, false⟩ =
      Except.error RatsioError.AckInboxMissing :=
  ⟨(c10_delivered_ack_inbox (fun _ => ⟨"t", "", [7], 0, 7, false⟩) "ACKIN"
      false ⟨"_SUB.X", "1", none, []⟩).2.1,
   (c10_delivered_ack_inbox (fun _ => ⟨"t", "", [7], 0, 7, false⟩) "ACKIN"
      false ⟨"_SUB.X", "1", none, []⟩).2.2
     ⟨"t", none, [], 0, 7, false, none, false⟩ rfl⟩

end Ratsio
